import Mathlib

/-!
# ClusteredMapView: region/activation controller

A shallow embedding of `src/lib/ClusteredMapView.js`.

The component keeps its data in React state cells (`useState`), reacts to two
effects (`useEffect`) and two event handlers, and talks to its surroundings
through callbacks.  Here every effect and handler is a function from the props
and the state of the render it closes over to an `Outcome`: the state after the
queued setters are applied, the observable calls it made (in program order) and
the exception it raised, if any.

Code that is imported by the component but lives elsewhere (`./helpers`, the
`supercluster` package) is taken as a parameter, bundled in `Helpers`.  The
helpers are taken as total functions; `getLeaves` alone may raise.

Type parameters used throughout:
* `χ` child elements (the entities handed to the view as children),
* `ρ` map regions, `β` bounding boxes, `ι` built cluster indexes,
* `ν` opaque numbers (coordinates, radius, padding), which are only copied,
* `σ` spiral positions produced by `generateSpiral`.
-/

namespace ClusteredMapView

/-! ## Data model -/

/-- The `limit` argument of `getLeaves`; the component always passes `Infinity`. -/
inductive Limit where
  | finite (n : Nat)
  | infinity
deriving DecidableEq, Repr

/-- Exceptions that can escape an effect or handler. -/
inductive JSError where
  /-- A property read on `null` (`superCluster.getLeaves` with no index held). -/
  | typeError
  /-- Raised by the index when asked about a cluster id it does not know. -/
  | notFound
deriving DecidableEq, Repr

/-- The `properties` object of a GeoJSON feature, restricted to the fields the
component reads.  A field that is absent in JavaScript is `none`. -/
structure Properties where
  cluster : Bool
  cluster_id : Option Int
  point_count : Option Nat
  index : Option Nat
deriving DecidableEq, Repr

/-- The `geometry` object of a GeoJSON point feature. -/
structure Geometry (ν : Type) where
  coordinates : List ν
deriving DecidableEq, Repr

/-- An entry of the cluster result set: a leaf feature or a cluster aggregate. -/
structure Feature (ν : Type) where
  id : Option Int
  geometry : Geometry ν
  properties : Properties
deriving DecidableEq, Repr

/-- The option object handed to `new SuperCluster(...)`. -/
structure ClusterOptions (ν : Type) where
  radius : ν
  maxZoom : ν
  minZoom : ν
  minPoints : ν
  extent : ν
  nodeSize : ν
deriving DecidableEq, Repr

/-- The `edgePadding` prop. -/
structure EdgePadding (ν : Type) where
  top : ν
  left : ν
  right : ν
  bottom : ν
deriving DecidableEq, Repr

/-- The second argument of `fitToCoordinates`: `edgePadding` is present only
when the prop is truthy. -/
structure FitOptions (ν : Type) where
  edgePadding : Option (EdgePadding ν)
deriving DecidableEq, Repr

/-- One entry of the coordinate list handed to `fitToCoordinates`.  Reading past
the end of `geometry.coordinates` gives `undefined`, here `none`. -/
structure LatLng (ν : Type) where
  latitude : Option ν
  longitude : Option ν
deriving DecidableEq, Repr

/-- The `layoutAnimationConf` prop; only `duration` is inspected. -/
structure LayoutAnimationConf where
  duration : Nat
deriving DecidableEq, Repr

/-- Shape of the `superClusterRef` prop as tested by the rebuild effect. -/
inductive RefShape where
  /-- A falsy value. -/
  | absent
  /-- An object with a `current` property. -/
  | refObject
  /-- Any other truthy value. -/
  | other
deriving DecidableEq, Repr

/-- The props (and the two pieces of environment the handlers read:
`Platform.OS` and the map widget behind `mapRef.current`). -/
structure Props (χ ν : Type) where
  radius : ν
  maxZoom : ν
  minZoom : ν
  minPoints : ν
  extent : ν
  nodeSize : ν
  /-- The array `propsChildren = React.Children.toArray(children)`. -/
  children : List χ
  /-- Whether an `onRegionChangeComplete` callback is supplied (truthy). -/
  onRegionChangeComplete : Bool
  preserveClusterPressBehavior : Bool
  clusteringEnabled : Bool
  layoutAnimationConf : Option LayoutAnimationConf
  animationEnabled : Bool
  /-- Whether a `renderCluster` function is supplied. -/
  renderCluster : Bool
  spiralEnabled : Bool
  superClusterRef : RefShape
  edgePadding : Option (EdgePadding ν)
  selectedClusterId : Option Int
  /-- The result of `Platform.OS === "ios"`. -/
  platformIsIOS : Bool
  /-- Whether `mapRef.current` is set and has a `fitToCoordinates` function. -/
  mapFitsToCoordinates : Bool

/-- The React state cells of the component. -/
structure State (χ ρ ι ν σ : Type) where
  markers : List (Feature ν)
  spiderMarkers : List σ
  otherChildren : List χ
  superCluster : Option ι
  currentRegion : Option ρ
  isSpiderfier : Bool
  clusterChildren : Option (List (Feature ν))
deriving DecidableEq, Repr

/-- Observable calls made by the effects and handlers, in program order. -/
inductive Event (ρ ι ν : Type) where
  /-- The call `new SuperCluster(options)`. -/
  | superClusterNew (options : ClusterOptions ν)
  /-- The call `superCluster.load(rawData)`. -/
  | superClusterLoad (rawData : List (Feature ν))
  /-- The assignment `superClusterRef.current = superCluster`. -/
  | setSuperClusterRef (index : ι)
  /-- The call `generateSpiral(marker, spiralChildren, markers, i)`. -/
  | generateSpiral (marker : Feature ν) (spiralChildren : List (Feature ν))
      (markers : List (Feature ν)) (i : Nat)
  /-- The call `console.log` at the top of the region handler. -/
  | logLayoutAnimationConf (conf : Option LayoutAnimationConf)
  /-- The call `LayoutAnimation.configureNext(layoutAnimationConf)`. -/
  | configureNext (conf : Option LayoutAnimationConf)
  /-- The call `onMarkersChange(markers)`. -/
  | onMarkersChange (markers : List (Feature ν))
  /-- The call `onRegionChangeComplete(region, markers)`; `markers` is `none`
  when the callback is called with the region alone. -/
  | onRegionChangeComplete (region : Option ρ) (markers : Option (List (Feature ν)))
  /-- The call `console.log` reporting the region and `markers.length`. -/
  | logRegionChange (region : Option ρ) (count : Nat)
  /-- The call `console.log` before the fit request. -/
  | logFit (coordinates : List (LatLng ν)) (fitOptions : FitOptions ν)
  /-- The call `mapRef.current.fitToCoordinates(coordinates, fitOptions)`. -/
  | fitToCoordinates (coordinates : List (LatLng ν)) (fitOptions : FitOptions ν)
  /-- The call `console.warn` when the map widget takes no fit request. -/
  | warnFit
  /-- The call `onClusterPress(cluster, children)`. -/
  | onClusterPress (cluster : Feature ν) (children : List (Feature ν))
deriving DecidableEq, Repr

/-- What one run of an effect or handler leaves behind. -/
structure Outcome (χ ρ ι ν σ : Type) where
  state : State χ ρ ι ν σ
  events : List (Event ρ ι ν)
  error : Option JSError
deriving DecidableEq, Repr

/-- The functions the component imports from `./helpers` and from the
`supercluster` package. -/
structure Helpers (χ ρ β ι ν σ : Type) where
  isMarker : χ → Bool
  markerToGeoJSONFeature : χ → Nat → Feature ν
  /-- Applied to whatever the caller holds as region, `undefined` included. -/
  calculateBBox : Option ρ → β
  returnMapZoom : Option ρ → β → ν → Int
  generateSpiral : Feature ν → List (Feature ν) → List (Feature ν) → Nat → List σ
  /-- The index obtained by `new SuperCluster(options)` followed by `load(rawData)`. -/
  superClusterLoad : ClusterOptions ν → List (Feature ν) → ι
  getClusters : ι → β → Int → List (Feature ν)
  getLeaves : ι → Option Int → Limit → Except JSError (List (Feature ν))

variable {χ ρ β ι ν σ : Type}

/-- The state of the first render: `useState` initial values, with
`currentRegion = restProps.region || restProps.initialRegion`. -/
def initialState (region : Option ρ) : State χ ρ ι ν σ :=
  { markers := []
    spiderMarkers := []
    otherChildren := []
    superCluster := none
    currentRegion := region
    isSpiderfier := false
    clusterChildren := none }

/-! ## The rebuild effect (lines 66-111) -/

/-- The loop `propsChildren.forEach((child, index) => ...)`: `index` counts every
child, `rawData` and `otherChildren` grow by `push`. -/
def forEachChild (h : Helpers χ ρ β ι ν σ) :
    List χ → Nat → List (Feature ν) × List χ → List (Feature ν) × List χ
  | [], _, acc => acc
  | child :: rest, index, (rawData, otherChildren) =>
    if h.isMarker child then
      forEachChild h rest (index + 1)
        (rawData ++ [h.markerToGeoJSONFeature child index], otherChildren)
    else
      forEachChild h rest (index + 1) (rawData, otherChildren ++ [child])

/-- The option object built from the props for `new SuperCluster`. -/
def clusterOptions (p : Props χ ν) : ClusterOptions ν :=
  { radius := p.radius
    maxZoom := p.maxZoom
    minZoom := p.minZoom
    minPoints := p.minPoints
    extent := p.extent
    nodeSize := p.nodeSize }

/-- The effect with dependencies `[propsChildren, clusteringEnabled]`. -/
def rebuildEffect (h : Helpers χ ρ β ι ν σ) (p : Props χ ν)
    (s : State χ ρ ι ν σ) : Outcome χ ρ ι ν σ :=
  if !p.clusteringEnabled then
    { state := { s with
        spiderMarkers := []
        markers := []
        otherChildren := p.children
        superCluster := none }
      events := []
      error := none }
  else
    let adapted := forEachChild h p.children 0 ([], [])
    let rawData := adapted.1
    let otherChildren := adapted.2
    let superCluster := h.superClusterLoad (clusterOptions p) rawData
    let bBox := h.calculateBBox s.currentRegion
    let zoom := h.returnMapZoom s.currentRegion bBox p.minZoom
    let markers := h.getClusters superCluster bBox zoom
    { state := { s with
        markers := markers
        otherChildren := otherChildren
        superCluster := some superCluster }
      events :=
        [Event.superClusterNew (clusterOptions p), Event.superClusterLoad rawData] ++
          (if p.superClusterRef = RefShape.refObject then
            [Event.setSuperClusterRef superCluster]
          else [])
      error := none }

/-! ## The spiral effect (lines 113-134) -/

/-- The local variables of the spiral effect while `markers.map` runs, together
with the calls made so far and the exception that stopped the loop, if any. -/
structure SpiralLoop (ρ ι ν σ : Type) where
  allSpiderMarkers : List σ
  spiralChildren : List (Feature ν)
  events : List (Event ρ ι ν)
  error : Option JSError

/-- The body of `markers.map((marker, i) => ...)` run over the remaining
entries; `markers` is the whole array, `i` the position of the next entry. -/
def spiralLoop (h : Helpers χ ρ β ι ν σ) (superCluster : Option ι)
    (markers : List (Feature ν)) :
    List (Feature ν) → Nat → SpiralLoop ρ ι ν σ → SpiralLoop ρ ι ν σ
  | [], _, acc => acc
  | marker :: rest, i, acc =>
    let fetched : Except JSError (List (Feature ν)) :=
      if marker.properties.cluster then
        match superCluster with
        | none => Except.error JSError.typeError
        | some index => h.getLeaves index marker.properties.cluster_id Limit.infinity
      else Except.ok acc.spiralChildren
    match fetched with
    | Except.error e => { acc with error := some e }
    | Except.ok spiralChildren =>
      let positions := h.generateSpiral marker spiralChildren markers i
      spiralLoop h superCluster markers rest (i + 1)
        { allSpiderMarkers := acc.allSpiderMarkers ++ positions
          spiralChildren := spiralChildren
          events := acc.events ++ [Event.generateSpiral marker spiralChildren markers i]
          error := none }

/-- The effect with dependencies `[isSpiderfier, markers]`. -/
def spiralEffect (h : Helpers χ ρ β ι ν σ) (p : Props χ ν)
    (s : State χ ρ ι ν σ) : Outcome χ ρ ι ν σ :=
  if !p.spiralEnabled then
    { state := s, events := [], error := none }
  else if s.isSpiderfier && decide (s.markers.length > 0) then
    let loop := spiralLoop h s.superCluster s.markers s.markers 0
      { allSpiderMarkers := [], spiralChildren := [], events := [], error := none }
    match loop.error with
    | some e => { state := s, events := loop.events, error := some e }
    | none =>
      { state := { s with spiderMarkers := loop.allSpiderMarkers }
        events := loop.events
        error := none }
  else
    { state := { s with spiderMarkers := [] }, events := [], error := none }

/-! ## The viewport-change handler (lines 136-159) -/

/-- The handler `_onRegionChangeComplete(region)`; a falsy `region` is `none`. -/
def _onRegionChangeComplete (h : Helpers χ ρ β ι ν σ) (p : Props χ ν)
    (s : State χ ρ ι ν σ) (region : Option ρ) : Outcome χ ρ ι ν σ :=
  match s.superCluster, region with
  | some superCluster, some r =>
    let bBox := h.calculateBBox (some r)
    let zoom := h.returnMapZoom (some r) bBox p.minZoom
    let markers := h.getClusters superCluster bBox zoom
    let animate : Bool :=
      p.animationEnabled && p.platformIsIOS &&
        (match p.layoutAnimationConf with
          | some conf => decide (conf.duration ≠ 0)
          | none => false)
    let spiderfy : Bool :=
      decide (zoom ≥ 18) && decide (markers.length > 0) && s.clusterChildren.isSome
    let isSpiderfier : Bool :=
      if spiderfy then (if p.spiralEnabled then true else s.isSpiderfier)
      else (if p.spiralEnabled then false else s.isSpiderfier)
    { state := { s with
        isSpiderfier := isSpiderfier
        markers := markers
        currentRegion := some r }
      events :=
        [Event.logLayoutAnimationConf p.layoutAnimationConf] ++
          (if animate then [Event.configureNext p.layoutAnimationConf] else []) ++
          [Event.onMarkersChange markers] ++
          (if p.onRegionChangeComplete then
            [Event.onRegionChangeComplete (some r) (some markers)]
          else []) ++
          [Event.logRegionChange (some r) markers.length]
      error := none }
  | _, _ =>
    { state := s
      events :=
        if p.onRegionChangeComplete then [Event.onRegionChangeComplete region none]
        else []
      error := none }

/-! ## The cluster-activation handler (lines 161-185) -/

/-- The mapping `({ geometry }) => ({ latitude: ..[1], longitude: ..[0] })`. -/
def toLatLng (leaf : Feature ν) : LatLng ν :=
  { latitude := leaf.geometry.coordinates[1]?
    longitude := leaf.geometry.coordinates[0]? }

/-- The handler `_onClusterPress(cluster)()`. -/
def _onClusterPress (h : Helpers χ ρ β ι ν σ) (p : Props χ ν)
    (s : State χ ρ ι ν σ) (cluster : Feature ν) : Outcome χ ρ ι ν σ :=
  let fetched : Except JSError (List (Feature ν)) :=
    match s.superCluster with
    | none => Except.error JSError.typeError
    | some index => h.getLeaves index cluster.id Limit.infinity
  match fetched with
  | Except.error e => { state := s, events := [], error := some e }
  | Except.ok children =>
    let s1 : State χ ρ ι ν σ := { s with clusterChildren := some children }
    if p.preserveClusterPressBehavior then
      { state := s1, events := [Event.onClusterPress cluster children], error := none }
    else
      let coordinates := children.map toLatLng
      let fitOptions : FitOptions ν := { edgePadding := p.edgePadding }
      { state := s1
        events :=
          [Event.logFit coordinates fitOptions] ++
            (if p.mapFitsToCoordinates then
              [Event.fitToCoordinates coordinates fitOptions]
            else [Event.warnFit]) ++
            [Event.onClusterPress cluster children]
        error := none }

/-! ## Rendering of the result set (lines 208-236) -/

/-- What one entry of `markers` is rendered as. -/
inductive Rendered (χ ν : Type) where
  /-- The element `propsChildren[marker.properties.index]` (`none` for `undefined`). -/
  | child (element : Option χ)
  /-- The result of the caller's `renderCluster`. -/
  | customCluster (marker : Feature ν)
  /-- The built-in `ClusterMarker`; `selected` tells which colour it takes. -/
  | clusterMarker (marker : Feature ν) (selected : Bool)
  /-- The value `null`: clusters are hidden while spiderfying. -/
  | null
deriving DecidableEq, Repr

/-- The body of `markers.map((marker) => ...)` in the returned element. -/
def renderMarker (p : Props χ ν) (isSpiderfier : Bool) (marker : Feature ν) :
    Rendered χ ν :=
  if marker.properties.point_count = some 0 then
    Rendered.child (marker.properties.index.bind (fun i => p.children[i]?))
  else if !isSpiderfier then
    if p.renderCluster then Rendered.customCluster marker
    else Rendered.clusterMarker marker (decide (p.selectedClusterId = marker.id))
  else Rendered.null

/-- The rendered result set. -/
def renderMarkers (p : Props χ ν) (s : State χ ρ ι ν σ) : List (Rendered χ ν) :=
  s.markers.map (renderMarker p s.isSpiderfier)

/-! ## Reference descriptions used to state the properties -/

/-- The features the adapter is expected to build from the children numbered
from `start`: one per marker child, made from the child and its own number. -/
def featuresFrom (h : Helpers χ ρ β ι ν σ) (start : Nat) (children : List χ) :
    List (Feature ν) :=
  ((children.enumFrom start).filter (fun e => h.isMarker e.2)).map
    (fun e => h.markerToGeoJSONFeature e.2 e.1)

/-- The children that are not markers, in their original order. -/
def nonMarkers (h : Helpers χ ρ β ι ν σ) (children : List χ) : List χ :=
  children.filter (fun c => !h.isMarker c)

/-- The leaves of a result-set entry as the held index reports them with an
unbounded limit (the empty list when the index raises). -/
def leavesOf (h : Helpers χ ρ β ι ν σ) (index : ι) (marker : Feature ν) :
    List (Feature ν) :=
  match h.getLeaves index marker.properties.cluster_id Limit.infinity with
  | Except.ok leaves => leaves
  | Except.error _ => []

/-- The leaf list of the last cluster entry among `preceding`, the empty list
when `preceding` holds no cluster entry. -/
def nearestClusterLeaves (h : Helpers χ ρ β ι ν σ) (index : ι)
    (preceding : List (Feature ν)) : List (Feature ν) :=
  match preceding.reverse.find? (fun m => m.properties.cluster) with
  | some c => leavesOf h index c
  | none => []

/-- The leaves that go with entry `i` of the result set: its own leaves when the
entry is a cluster, otherwise those of the nearest preceding cluster entry. -/
def spiralLeavesAt (h : Helpers χ ρ β ι ν σ) (index : ι) (markers : List (Feature ν))
    (i : Nat) : List (Feature ν) :=
  match markers[i]? with
  | some m =>
    if m.properties.cluster then leavesOf h index m
    else nearestClusterLeaves h index (markers.take i)
  | none => []

/-- Whether an event is a call of `onMarkersChange`. -/
def Event.isMarkersChange : Event ρ ι ν → Bool
  | Event.onMarkersChange _ => true
  | _ => false

/-- Whether an event is a call of `onClusterPress`. -/
def Event.isClusterPress : Event ρ ι ν → Bool
  | Event.onClusterPress _ _ => true
  | _ => false

/-- Whether an event is a fit-region request to the map widget. -/
def Event.isFit : Event ρ ι ν → Bool
  | Event.fitToCoordinates _ _ => true
  | _ => false

/-- Whether an event constructs or loads an index. -/
def Event.isIndexBuild : Event ρ ι ν → Bool
  | Event.superClusterNew _ => true
  | Event.superClusterLoad _ => true
  | _ => false

/-- The states the controller can be in: start from the first render and apply
effects and handlers in any order, each with whatever props are current. -/
inductive Reachable (h : Helpers χ ρ β ι ν σ) : State χ ρ ι ν σ → Prop where
  | init (region : Option ρ) : Reachable h (initialState region)
  | rebuild (p : Props χ ν) (s : State χ ρ ι ν σ) :
      Reachable h s → Reachable h (rebuildEffect h p s).state
  | spiral (p : Props χ ν) (s : State χ ρ ι ν σ) :
      Reachable h s → Reachable h (spiralEffect h p s).state
  | regionChange (p : Props χ ν) (region : Option ρ) (s : State χ ρ ι ν σ) :
      Reachable h s → Reachable h (_onRegionChangeComplete h p s region).state
  | clusterPress (p : Props χ ν) (cluster : Feature ν) (s : State χ ρ ι ν σ) :
      Reachable h s → Reachable h (_onClusterPress h p s cluster).state

/-- The reachable states together with a record of the past: `History h a s`
says that `s` is reached by a run of effects and handlers, and `a` tells whether
some cluster activation in that run went through (its `getLeaves` call
answered). -/
inductive History (h : Helpers χ ρ β ι ν σ) : Bool → State χ ρ ι ν σ → Prop where
  | init (region : Option ρ) : History h false (initialState region)
  | rebuild (p : Props χ ν) (a : Bool) (s : State χ ρ ι ν σ) :
      History h a s → History h a (rebuildEffect h p s).state
  | spiral (p : Props χ ν) (a : Bool) (s : State χ ρ ι ν σ) :
      History h a s → History h a (spiralEffect h p s).state
  | regionChange (p : Props χ ν) (region : Option ρ) (a : Bool) (s : State χ ρ ι ν σ) :
      History h a s → History h a (_onRegionChangeComplete h p s region).state
  | clusterPress (p : Props χ ν) (cluster : Feature ν) (a : Bool) (s : State χ ρ ι ν σ) :
      History h a s →
        History h (a || (_onClusterPress h p s cluster).error.isNone)
          (_onClusterPress h p s cluster).state

/-! ## A small concrete instance

Children are optional coordinate pairs (a child without a coordinate is not a
marker), a region is just the zoom it maps to, and an index is the list of
features it was loaded with.  Below zoom 18 the sample index reports a single
cluster with id 1 standing for all loaded features.  From zoom 18 on, the
features that share the coordinates of the first one stay together in a cluster
with id 2 (when there are at least two of them) and the others are reported on
their own. -/

/-- Whether a feature has the coordinates of the first feature of the list. -/
def atFirstCoordinates (loaded : List (Feature Int)) (f : Feature Int) : Bool :=
  match loaded.head? with
  | some f0 => decide (f.geometry.coordinates = f0.geometry.coordinates)
  | none => false

/-- A cluster aggregate of the sample index. -/
def sampleAggregate (id : Int) (count : Nat) : Feature Int :=
  { id := some id
    geometry := { coordinates := [0, 0] }
    properties := { cluster := true, cluster_id := some id, point_count := some count, index := none } }

/-- Sample helper set. -/
def sampleHelpers :
    Helpers (Option (Int × Int)) Int Unit (List (Feature Int)) Int (Nat × Option Nat) :=
  { isMarker := fun c => c.isSome
    markerToGeoJSONFeature := fun c i =>
      { id := none
        geometry := { coordinates := match c with
          | some (lon, lat) => [lon, lat]
          | none => [] }
        properties := { cluster := false, cluster_id := none, point_count := some 0, index := some i } }
    calculateBBox := fun _ => ()
    returnMapZoom := fun region _ _ => region.getD 0
    generateSpiral := fun _ leaves _ i => leaves.map (fun l => (i, l.properties.index))
    superClusterLoad := fun _ rawData => rawData
    getClusters := fun loaded _ zoom =>
      if loaded.isEmpty then []
      else if zoom < 18 then [sampleAggregate 1 loaded.length]
      else if (loaded.filter (atFirstCoordinates loaded)).length < 2 then loaded
      else
        sampleAggregate 2 (loaded.filter (atFirstCoordinates loaded)).length ::
          loaded.filter (fun f => !atFirstCoordinates loaded f)
    getLeaves := fun loaded id _ =>
      if id = some 1 then Except.ok loaded
      else if id = some 2 then Except.ok (loaded.filter (atFirstCoordinates loaded))
      else Except.error JSError.notFound }

/-- Sample props: the defaults of the component, with four children of which
the second has no coordinate and the first and third share theirs. -/
def sampleProps : Props (Option (Int × Int)) Int :=
  { radius := 20
    maxZoom := 20
    minZoom := 1
    minPoints := 2
    extent := 512
    nodeSize := 64
    children := [some (10, 50), none, some (10, 50), some (11, 51)]
    onRegionChangeComplete := true
    preserveClusterPressBehavior := false
    clusteringEnabled := true
    layoutAnimationConf := some { duration := 300 }
    animationEnabled := true
    renderCluster := false
    spiralEnabled := true
    superClusterRef := RefShape.refObject
    edgePadding := some { top := 50, left := 50, right := 50, bottom := 50 }
    selectedClusterId := none
    platformIsIOS := true
    mapFitsToCoordinates := true }

/-- Sample leaf feature for the child at position `i` with the given coordinates. -/
def sampleLeaf (lon lat : Int) (i : Nat) : Feature Int :=
  sampleHelpers.markerToGeoJSONFeature (some (lon, lat)) i

/-- The index the sample rebuild holds: the three marker children, with their
positions 0, 2 and 3 in the child list. -/
def sampleIndex : List (Feature Int) :=
  [sampleLeaf 10 50 0, sampleLeaf 10 50 2, sampleLeaf 11 51 3]

/-- The sample state after the first render and one rebuild at zoom 3. -/
def sampleState :
    State (Option (Int × Int)) Int (List (Feature Int)) Int (Nat × Option Nat) :=
  (rebuildEffect sampleHelpers sampleProps (initialState (some 3))).state

/-- The sample state after activating the cluster shown at zoom 3. -/
def samplePressed :
    State (Option (Int × Int)) Int (List (Feature Int)) Int (Nat × Option Nat) :=
  (_onClusterPress sampleHelpers sampleProps sampleState (sampleAggregate 1 3)).state

/-- The sample state after the activation, a viewport change to zoom 19 and the
spiral effect: the controller is spiderfying. -/
def sampleSpider :
    State (Option (Int × Int)) Int (List (Feature Int)) Int (Nat × Option Nat) :=
  (spiralEffect sampleHelpers sampleProps
    (_onRegionChangeComplete sampleHelpers sampleProps samplePressed (some 19)).state).state

/-! ## Properties of the rebuild effect -/

theorem featuresFrom_nil (h : Helpers χ ρ β ι ν σ) (start : Nat) :
    featuresFrom h start ([] : List χ) = [] := by
  simp [featuresFrom]

theorem featuresFrom_cons_marker (h : Helpers χ ρ β ι ν σ) (start : Nat) (c : χ)
    (cs : List χ) (hc : h.isMarker c = true) :
    featuresFrom h start (c :: cs) =
      h.markerToGeoJSONFeature c start :: featuresFrom h (start + 1) cs := by
  simp [featuresFrom, List.enumFrom_cons, hc]

theorem featuresFrom_cons_other (h : Helpers χ ρ β ι ν σ) (start : Nat) (c : χ)
    (cs : List χ) (hc : ¬ h.isMarker c = true) :
    featuresFrom h start (c :: cs) = featuresFrom h (start + 1) cs := by
  simp [featuresFrom, List.enumFrom_cons, hc]

theorem forEachChild_eq (h : Helpers χ ρ β ι ν σ) (children : List χ) (start : Nat)
    (rawData : List (Feature ν)) (otherChildren : List χ) :
    forEachChild h children start (rawData, otherChildren) =
      (rawData ++ featuresFrom h start children, otherChildren ++ nonMarkers h children) := by
  induction children generalizing start rawData otherChildren with
  | nil => simp [forEachChild, featuresFrom_nil, nonMarkers]
  | cons c cs ih =>
    by_cases hc : h.isMarker c = true
    · simp [forEachChild, hc, ih, featuresFrom_cons_marker, nonMarkers]
    · simp [forEachChild, hc, ih, featuresFrom_cons_other, nonMarkers]

theorem featuresFrom_length (h : Helpers χ ρ β ι ν σ) (start : Nat) (children : List χ) :
    (featuresFrom h start children).length = children.countP h.isMarker := by
  induction children generalizing start with
  | nil => simp [featuresFrom_nil]
  | cons c cs ih =>
    by_cases hc : h.isMarker c = true
    · simp [featuresFrom_cons_marker, hc, List.countP_cons, ih]
    · simp [featuresFrom_cons_other, hc, List.countP_cons, ih]

theorem nonMarkers_length (h : Helpers χ ρ β ι ν σ) (children : List χ) :
    children.countP h.isMarker + (nonMarkers h children).length = children.length := by
  induction children with
  | nil => simp [nonMarkers]
  | cons c cs ih =>
    by_cases hc : h.isMarker c = true
    · simp [nonMarkers, hc, List.countP_cons] at ih ⊢
      omega
    · simp [nonMarkers, hc, List.countP_cons] at ih ⊢
      omega

theorem featuresFrom_getElem? (h : Helpers χ ρ β ι ν σ) (children : List χ) (start i : Nat)
    (hi : i < children.length) (hm : h.isMarker children[i] = true) :
    (featuresFrom h start children)[(children.take i).countP h.isMarker]? =
      some (h.markerToGeoJSONFeature children[i] (start + i)) := by
  induction children generalizing start i with
  | nil => simp at hi
  | cons c cs ih =>
    cases i with
    | zero =>
      have hm0 : h.isMarker c = true := by simpa using hm
      simp [featuresFrom_cons_marker, hm0]
    | succ j =>
      have hj : j < cs.length := by simpa using hi
      have hmj : h.isMarker cs[j] = true := by simpa using hm
      have ih1 := ih (start + 1) j hj hmj
      have hidx : start + 1 + j = start + (j + 1) := by omega
      rw [hidx] at ih1
      by_cases hc : h.isMarker c = true
      · rw [featuresFrom_cons_marker h start c cs hc]
        simp only [List.take_succ_cons, List.countP_cons, hc, if_true,
          List.getElem?_cons_succ, List.getElem_cons_succ]
        exact ih1
      · rw [featuresFrom_cons_other h start c cs hc]
        simp only [List.take_succ_cons, List.countP_cons, hc, if_false, Nat.add_zero,
          List.getElem_cons_succ]
        exact ih1

/-- C1: with clustering enabled the rebuild effect splits the children in two:
the loop yields exactly one feature per marker child and puts every other
child, unchanged and in order, in `otherChildren`; the index is loaded with
those features, the state keeps that passthrough list, and the two lengths add
up to the number of children. -/
theorem rebuild_partitions_children (h : Helpers χ ρ β ι ν σ) (p : Props χ ν)
    (s : State χ ρ ι ν σ) (hen : p.clusteringEnabled = true) :
    forEachChild h p.children 0 ([], []) =
        (featuresFrom h 0 p.children, nonMarkers h p.children) ∧
      (rebuildEffect h p s).state.otherChildren = p.children.filter (fun c => !h.isMarker c) ∧
      (rebuildEffect h p s).state.superCluster =
        some (h.superClusterLoad (clusterOptions p) (featuresFrom h 0 p.children)) ∧
      Event.superClusterLoad (featuresFrom h 0 p.children) ∈ (rebuildEffect h p s).events ∧
      (featuresFrom h 0 p.children).length = p.children.countP h.isMarker ∧
      (featuresFrom h 0 p.children).length + (nonMarkers h p.children).length =
        p.children.length ∧
      (nonMarkers h p.children).Sublist p.children := by
  have hloop := forEachChild_eq h p.children 0 [] []
  simp only [List.nil_append] at hloop
  refine ⟨hloop, ?_, ?_, ?_, featuresFrom_length h 0 p.children, ?_, ?_⟩
  · simp [rebuildEffect, hen, hloop, nonMarkers]
  · simp [rebuildEffect, hen, hloop]
  · simp [rebuildEffect, hen, hloop]
  · rw [featuresFrom_length]
    exact nonMarkers_length h p.children
  · exact List.filter_sublist _

/-- C1 on a sample: three children of which one lacks a coordinate give two
features and one passthrough child. -/
theorem rebuild_partitions_children_witness :
    (forEachChild sampleHelpers [some (10, 50), none, some (11, 51)] 0 ([], [])).1.length = 2 ∧
      (forEachChild sampleHelpers [some (10, 50), none, some (11, 51)] 0 ([], [])).2.length = 1 ∧
      (rebuildEffect sampleHelpers
        { sampleProps with children := [some (10, 50), none, some (11, 51)] }
        (initialState (some 3))).state.otherChildren = [none] := by
  have key := rebuild_partitions_children sampleHelpers
    { sampleProps with children := [some (10, 50), none, some (11, 51)] }
    (initialState (some 3)) rfl
  refine ⟨?_, ?_, ?_⟩
  · rw [key.1]
    decide
  · rw [key.1]
    decide
  · rw [key.2.1]
    decide

/-- C2: a marker child at position `i` of the full child list is turned into a
feature with index `i` (it sits in `rawData` at its rank among the markers, but
is built from `i`); and when the helper stores the index it is given, the
render step maps any leaf entry (`point_count == 0`) that carries index `i`,
that feature included, back to the child at position `i`. -/
theorem originalIndex_round_trip (h : Helpers χ ρ β ι ν σ) (p : Props χ ν) (i : Nat)
    (hi : i < p.children.length) (hm : h.isMarker p.children[i] = true)
    (hstore : ∀ (c : χ) (j : Nat), (h.markerToGeoJSONFeature c j).properties.index = some j) :
    (forEachChild h p.children 0 ([], [])).1[(p.children.take i).countP h.isMarker]? =
        some (h.markerToGeoJSONFeature p.children[i] i) ∧
      (∀ (spider : Bool) (m : Feature ν), m.properties.point_count = some 0 →
        m.properties.index = some i →
        renderMarker p spider m = Rendered.child (some p.children[i])) ∧
      (∀ (spider : Bool),
        (h.markerToGeoJSONFeature p.children[i] i).properties.point_count = some 0 →
        renderMarker p spider (h.markerToGeoJSONFeature p.children[i] i) =
          Rendered.child (some p.children[i])) := by
  have hloop := forEachChild_eq h p.children 0 [] []
  simp only [List.nil_append] at hloop
  have hget := featuresFrom_getElem? h p.children 0 i hi hm
  simp only [Nat.zero_add] at hget
  have hrender : ∀ (spider : Bool) (m : Feature ν), m.properties.point_count = some 0 →
      m.properties.index = some i →
      renderMarker p spider m = Rendered.child (some p.children[i]) := by
    intro spider m hpc hidx
    simp [renderMarker, hpc, hidx, List.getElem?_eq_getElem hi]
  refine ⟨?_, hrender, ?_⟩
  · rw [hloop]
    exact hget
  · intro spider hpc
    exact hrender spider _ hpc (hstore _ _)

/-- C2 on the sample: the fourth child is the third marker; its feature is
built with index 3 and is rendered as the fourth child. -/
theorem originalIndex_round_trip_witness :
    (forEachChild sampleHelpers sampleProps.children 0 ([], [])).1[2]? =
        some (sampleLeaf 11 51 3) ∧
      renderMarker sampleProps false (sampleLeaf 11 51 3) =
        Rendered.child (some (some (11, 51))) := by
  have key := originalIndex_round_trip sampleHelpers sampleProps 3 (by decide) (by decide)
    (fun _ _ => rfl)
  exact ⟨key.1, key.2.2 false rfl⟩

/-- C3: with the clustering flag off the rebuild effect hands every child
through unchanged, empties the result set and the spiral positions, holds no
index afterwards, constructs none during the step and raises nothing. -/
theorem rebuild_disabled_passes_through (h : Helpers χ ρ β ι ν σ) (p : Props χ ν)
    (s : State χ ρ ι ν σ) (hoff : p.clusteringEnabled = false) :
    (rebuildEffect h p s).state.otherChildren = p.children ∧
      (rebuildEffect h p s).state.markers = [] ∧
      (rebuildEffect h p s).state.spiderMarkers = [] ∧
      (rebuildEffect h p s).state.superCluster = none ∧
      (rebuildEffect h p s).events.filter Event.isIndexBuild = [] ∧
      (rebuildEffect h p s).events = [] ∧
      (rebuildEffect h p s).error = none := by
  simp [rebuildEffect, hoff]

/-- C3 on the sample: switching clustering off after a rebuild drops the index
and hands all four children through. -/
theorem rebuild_disabled_passes_through_witness :
    sampleState.superCluster = some sampleIndex ∧
      (rebuildEffect sampleHelpers { sampleProps with clusteringEnabled := false }
        sampleState).state.otherChildren =
          [some (10, 50), none, some (10, 50), some (11, 51)] ∧
      (rebuildEffect sampleHelpers { sampleProps with clusteringEnabled := false }
        sampleState).state.superCluster = none :=
  ⟨by decide,
    (rebuild_disabled_passes_through sampleHelpers
      { sampleProps with clusteringEnabled := false } sampleState rfl).1,
    (rebuild_disabled_passes_through sampleHelpers
      { sampleProps with clusteringEnabled := false } sampleState rfl).2.2.2.1⟩

/-! ## Properties of the viewport-change handler -/

theorem spiralEffect_keeps_clusterChildren (h : Helpers χ ρ β ι ν σ) (p : Props χ ν)
    (s : State χ ρ ι ν σ) :
    (spiralEffect h p s).state.clusterChildren = s.clusterChildren := by
  simp only [spiralEffect]
  split_ifs
  · rfl
  · cases hloop : (spiralLoop h s.superCluster s.markers s.markers 0
      { allSpiderMarkers := [], spiralChildren := [], events := [], error := none }).error <;>
      rfl
  · rfl

theorem onClusterPress_clusterChildren (h : Helpers χ ρ β ι ν σ) (p : Props χ ν)
    (s : State χ ρ ι ν σ) (cluster : Feature ν) :
    (_onClusterPress h p s cluster).state.clusterChildren.isSome =
      (s.clusterChildren.isSome || (_onClusterPress h p s cluster).error.isNone) := by
  cases hsc : s.superCluster with
  | none => simp [_onClusterPress, hsc]
  | some index =>
    cases hl : h.getLeaves index cluster.id Limit.infinity with
    | error e => simp [_onClusterPress, hsc, hl]
    | ok children =>
      cases hp : p.preserveClusterPressBehavior <;> simp [_onClusterPress, hsc, hl, hp]

theorem history_clusterChildren (h : Helpers χ ρ β ι ν σ) (a : Bool) (s : State χ ρ ι ν σ)
    (hist : History h a s) : s.clusterChildren.isSome = a := by
  induction hist with
  | init region => rfl
  | rebuild p a s _ ih =>
    rw [← ih]
    unfold rebuildEffect
    cases p.clusteringEnabled <;> rfl
  | spiral p a s _ ih =>
    rw [spiralEffect_keeps_clusterChildren, ih]
  | regionChange p region a s _ ih =>
    rw [← ih]
    unfold _onRegionChangeComplete
    split <;> rfl
  | clusterPress p cluster a s _ ih =>
    rw [onClusterPress_clusterChildren, ih]

/-- C4: a viewport change carrying a region, handled while an index is held and
spiderfying is enabled, replaces the result set by
`getClusters(calculateBBox(region), returnMapZoom(region, bBox, minZoom))`, and
leaves the controller spiderfying exactly when that zoom is at least 18, the
new result set is non-empty and a cluster activation went through earlier in
the run (which is what a non-null `clusterChildren` records). -/
theorem regionChange_spiderfy_iff (h : Helpers χ ρ β ι ν σ) (p : Props χ ν)
    (s : State χ ρ ι ν σ) (activated : Bool) (index : ι) (region : ρ)
    (hist : History h activated s)
    (hidx : s.superCluster = some index) (hsp : p.spiralEnabled = true) :
    (_onRegionChangeComplete h p s (some region)).state.markers =
        h.getClusters index (h.calculateBBox (some region))
          (h.returnMapZoom (some region) (h.calculateBBox (some region)) p.minZoom) ∧
      ((_onRegionChangeComplete h p s (some region)).state.isSpiderfier = true ↔
        (h.returnMapZoom (some region) (h.calculateBBox (some region)) p.minZoom ≥ 18 ∧
          (_onRegionChangeComplete h p s (some region)).state.markers ≠ [] ∧
          activated = true)) ∧
      s.clusterChildren.isSome = activated := by
  have hact := history_clusterChildren h activated s hist
  refine ⟨?_, ?_, hact⟩
  · simp [_onRegionChangeComplete, hidx]
  · rw [← hact]
    simp [_onRegionChangeComplete, hidx, hsp, List.length_pos, and_assoc]

/-- C4 on the sample: after an activation, a change to zoom 19 spiderfies;
without one it does not. -/
theorem regionChange_spiderfy_iff_witness :
    samplePressed.superCluster = some sampleIndex ∧
      sampleProps.spiralEnabled = true ∧
      (_onRegionChangeComplete sampleHelpers sampleProps samplePressed
        (some 19)).state.isSpiderfier = true ∧
      (_onRegionChangeComplete sampleHelpers sampleProps sampleState
        (some 19)).state.isSpiderfier = false := by
  have hist : History sampleHelpers true samplePressed :=
    History.clusterPress sampleProps (sampleAggregate 1 3) false sampleState
      (History.rebuild sampleProps false _ (History.init (some 3)))
  refine ⟨by decide, rfl, ?_, by decide⟩
  exact (regionChange_spiderfy_iff sampleHelpers sampleProps samplePressed true sampleIndex 19
    hist (by decide) rfl).2.1.2 ⟨by decide, by decide, rfl⟩

theorem regionChange_fires_onMarkersChange_once (h : Helpers χ ρ β ι ν σ) (p : Props χ ν)
    (s : State χ ρ ι ν σ) (index : ι) (region : ρ) (hidx : s.superCluster = some index) :
    (_onRegionChangeComplete h p s (some region)).events.filter Event.isMarkersChange =
      [Event.onMarkersChange (_onRegionChangeComplete h p s (some region)).state.markers] := by
  simp only [_onRegionChangeComplete, hidx]
  cases p.onRegionChangeComplete <;>
    cases (p.animationEnabled && p.platformIsIOS &&
      (match p.layoutAnimationConf with
        | some conf => decide (conf.duration ≠ 0)
        | none => false)) <;>
    simp [Event.isMarkersChange]

theorem rebuild_never_fires_onMarkersChange (h : Helpers χ ρ β ι ν σ) (p : Props χ ν)
    (s : State χ ρ ι ν σ) :
    (rebuildEffect h p s).events.filter Event.isMarkersChange = [] := by
  unfold rebuildEffect
  cases p.clusteringEnabled <;> cases hr : p.superClusterRef <;>
    simp [Event.isMarkersChange]

/-- C5: on the sample, the rebuild effect queries the index it has just built,
stores the one-cluster result as the current result set, and makes no
`onMarkersChange` call at all; the viewport-change handler, run from the same
state, makes exactly one with the result set it stores. -/
theorem rebuild_skips_onMarkersChange :
    (rebuildEffect sampleHelpers sampleProps (initialState (some 3))).state.markers =
        sampleHelpers.getClusters sampleIndex () 3 ∧
      (rebuildEffect sampleHelpers sampleProps (initialState (some 3))).state.markers =
        [sampleAggregate 1 3] ∧
      (rebuildEffect sampleHelpers sampleProps (initialState (some 3))).events =
        [Event.superClusterNew (clusterOptions sampleProps),
          Event.superClusterLoad sampleIndex,
          Event.setSuperClusterRef sampleIndex] ∧
      (rebuildEffect sampleHelpers sampleProps (initialState (some 3))).events.filter
        Event.isMarkersChange = [] ∧
      (_onRegionChangeComplete sampleHelpers sampleProps sampleState (some 3)).events.filter
        Event.isMarkersChange = [Event.onMarkersChange [sampleAggregate 1 3]] := by
  decide

/-! ## Properties of the cluster-activation handler -/

/-- C6, as the claim puts it, fails on the sample: with the preserve flag off
and a map widget that takes fit requests, the handler makes the fit request
second and the `onClusterPress` call third, so the callback is not fired before
the fit request. -/
theorem clusterPress_callback_not_before_fit :
    sampleProps.preserveClusterPressBehavior = false ∧
      sampleProps.mapFitsToCoordinates = true ∧
      sampleHelpers.getLeaves sampleIndex (sampleAggregate 1 3).id Limit.infinity =
        Except.ok sampleIndex ∧
      (_onClusterPress sampleHelpers sampleProps sampleState (sampleAggregate 1 3)).events =
        [Event.logFit (sampleIndex.map toLatLng) { edgePadding := sampleProps.edgePadding },
          Event.fitToCoordinates (sampleIndex.map toLatLng)
            { edgePadding := sampleProps.edgePadding },
          Event.onClusterPress (sampleAggregate 1 3) sampleIndex] ∧
      ¬ ((_onClusterPress sampleHelpers sampleProps sampleState
            (sampleAggregate 1 3)).events.findIdx Event.isClusterPress <
          (_onClusterPress sampleHelpers sampleProps sampleState
            (sampleAggregate 1 3)).events.findIdx Event.isFit) :=
  ⟨rfl, rfl, rfl, by decide, by decide⟩

/-- C6, amended: for a cluster activated while an index is held, with `leaves`
the answer of `getLeaves(cluster.id, Infinity)`, the handler raises nothing,
records the leaves, and fires `onClusterPress(cluster, leaves)` exactly once;
with the preserve flag set it sends no fit request; with the flag off and a map
widget that takes fit requests it sends exactly one, with one coordinate per
leaf in leaf order (latitude from `coordinates[1]`, longitude from
`coordinates[0]`) and the configured edge padding, and `onClusterPress` is
fired after that request. -/
theorem clusterPress_events (h : Helpers χ ρ β ι ν σ) (p : Props χ ν)
    (s : State χ ρ ι ν σ) (index : ι) (cluster : Feature ν) (leaves : List (Feature ν))
    (hidx : s.superCluster = some index)
    (hleaves : h.getLeaves index cluster.id Limit.infinity = Except.ok leaves) :
    (_onClusterPress h p s cluster).error = none ∧
      (_onClusterPress h p s cluster).state = { s with clusterChildren := some leaves } ∧
      (_onClusterPress h p s cluster).events.filter Event.isClusterPress =
        [Event.onClusterPress cluster leaves] ∧
      (p.preserveClusterPressBehavior = true →
        (_onClusterPress h p s cluster).events = [Event.onClusterPress cluster leaves]) ∧
      (p.preserveClusterPressBehavior = false → p.mapFitsToCoordinates = true →
        (_onClusterPress h p s cluster).events.filter
            (fun e => e.isFit || e.isClusterPress) =
          [Event.fitToCoordinates
              (leaves.map (fun leaf =>
                { latitude := leaf.geometry.coordinates[1]?
                  longitude := leaf.geometry.coordinates[0]? }))
              { edgePadding := p.edgePadding },
            Event.onClusterPress cluster leaves]) := by
  simp only [_onClusterPress, hidx, hleaves]
  cases hp : p.preserveClusterPressBehavior <;> cases hf : p.mapFitsToCoordinates <;>
    simp [Event.isClusterPress, Event.isFit, toLatLng]

/-- C6 on the sample: one fit request with three coordinates and the default
padding, then the callback. -/
theorem clusterPress_events_witness :
    sampleState.superCluster = some sampleIndex ∧
      sampleHelpers.getLeaves sampleIndex (sampleAggregate 1 3).id Limit.infinity =
        Except.ok sampleIndex ∧
      (_onClusterPress sampleHelpers sampleProps sampleState (sampleAggregate 1 3)).events.filter
          (fun e => e.isFit || e.isClusterPress) =
        [Event.fitToCoordinates
            [({ latitude := some 50, longitude := some 10 } : LatLng Int),
              { latitude := some 50, longitude := some 10 },
              { latitude := some 51, longitude := some 11 }]
            { edgePadding := some { top := 50, left := 50, right := 50, bottom := 50 } },
          Event.onClusterPress (sampleAggregate 1 3) sampleIndex] :=
  ⟨by decide, rfl,
    (clusterPress_events sampleHelpers sampleProps sampleState sampleIndex
      (sampleAggregate 1 3) sampleIndex (by decide) rfl).2.2.2.2 rfl rfl⟩

/-- C7, as the claim puts it, fails on the sample: activating a cluster whose
id (99) the held index does not know makes the handler fail with the error of
`getLeaves`. -/
theorem clusterPress_stale_id_fails :
    sampleState.superCluster = some sampleIndex ∧
      sampleHelpers.getLeaves sampleIndex (sampleAggregate 99 3).id Limit.infinity =
        Except.error JSError.notFound ∧
      (_onClusterPress sampleHelpers sampleProps sampleState (sampleAggregate 99 3)).error ≠
        none :=
  ⟨by decide, rfl, by decide⟩

/-- C7, amended: when `getLeaves` fails for the id of the activated cluster,
the handler fails with that same error (it does not catch it); the controller
state is left as it was and neither a fit request nor `onClusterPress` nor any
other call is made. -/
theorem clusterPress_stale_id (h : Helpers χ ρ β ι ν σ) (p : Props χ ν)
    (s : State χ ρ ι ν σ) (index : ι) (cluster : Feature ν) (e : JSError)
    (hidx : s.superCluster = some index)
    (hfail : h.getLeaves index cluster.id Limit.infinity = Except.error e) :
    (_onClusterPress h p s cluster).error = some e ∧
      (_onClusterPress h p s cluster).state = s ∧
      (_onClusterPress h p s cluster).events = [] := by
  simp [_onClusterPress, hidx, hfail]

/-- C7 on the sample: the stale id 99 gives `notFound`, an unchanged state and
no calls. -/
theorem clusterPress_stale_id_witness :
    (_onClusterPress sampleHelpers sampleProps sampleState (sampleAggregate 99 3)).error =
        some JSError.notFound ∧
      (_onClusterPress sampleHelpers sampleProps sampleState (sampleAggregate 99 3)).state =
        sampleState ∧
      (_onClusterPress sampleHelpers sampleProps sampleState (sampleAggregate 99 3)).events =
        [] :=
  clusterPress_stale_id sampleHelpers sampleProps sampleState sampleIndex
    (sampleAggregate 99 3) JSError.notFound (by decide) rfl

/-! ## Leaving the spiderfying state -/

/-- C8, as the claim puts it, fails on the sample: from the spiderfying sample
state, with the spiderfy flag switched off at the time of the event, a viewport
change to zoom 3, followed by the spiral effect, leaves the spiderfy flag set
and the four spiral positions in place. -/
theorem spiral_kept_when_disabled :
    sampleSpider.isSpiderfier = true ∧
      sampleSpider.superCluster = some sampleIndex ∧
      sampleHelpers.returnMapZoom (some 3) (sampleHelpers.calculateBBox (some 3))
        sampleProps.minZoom < 18 ∧
      (spiralEffect sampleHelpers { sampleProps with spiralEnabled := false }
        (_onRegionChangeComplete sampleHelpers { sampleProps with spiralEnabled := false }
          sampleSpider (some 3)).state).state.isSpiderfier = true ∧
      (spiralEffect sampleHelpers { sampleProps with spiralEnabled := false }
        (_onRegionChangeComplete sampleHelpers { sampleProps with spiralEnabled := false }
          sampleSpider (some 3)).state).state.spiderMarkers =
        [(0, some 0), (0, some 2), (1, some 0), (1, some 2)] := by
  decide

/-- C8, amended: for every controller state (a spiderfying one included), when
the spiderfy flag is on while the handler and the spiral effect run, a viewport
change handled with an index held whose zoom is below 18 leaves the controller
not spiderfying, and after the spiral effect the spiral positions are empty;
neither step raises. -/
theorem spiral_cleared_below_threshold (h : Helpers χ ρ β ι ν σ) (p₁ p₂ : Props χ ν)
    (s : State χ ρ ι ν σ) (index : ι) (region : ρ)
    (hidx : s.superCluster = some index)
    (hzoom : h.returnMapZoom (some region) (h.calculateBBox (some region)) p₁.minZoom < 18)
    (hsp₁ : p₁.spiralEnabled = true) (hsp₂ : p₂.spiralEnabled = true) :
    (_onRegionChangeComplete h p₁ s (some region)).error = none ∧
      (_onRegionChangeComplete h p₁ s (some region)).state.isSpiderfier = false ∧
      (spiralEffect h p₂ (_onRegionChangeComplete h p₁ s (some region)).state).error = none ∧
      (spiralEffect h p₂
        (_onRegionChangeComplete h p₁ s (some region)).state).state.isSpiderfier = false ∧
      (spiralEffect h p₂
        (_onRegionChangeComplete h p₁ s (some region)).state).state.spiderMarkers = [] := by
  have hnot : ¬ (18 ≤ h.returnMapZoom (some region) (h.calculateBBox (some region))
      p₁.minZoom) := by omega
  simp [_onRegionChangeComplete, spiralEffect, hidx, hsp₁, hsp₂, hnot]

/-- C8 on the sample: with the flag on, the same viewport change clears the
spiral positions of the spiderfying sample state. -/
theorem spiral_cleared_below_threshold_witness :
    sampleSpider.isSpiderfier = true ∧
      sampleSpider.spiderMarkers ≠ [] ∧
      (spiralEffect sampleHelpers sampleProps
        (_onRegionChangeComplete sampleHelpers sampleProps sampleSpider
          (some 3)).state).state.isSpiderfier = false ∧
      (spiralEffect sampleHelpers sampleProps
        (_onRegionChangeComplete sampleHelpers sampleProps sampleSpider
          (some 3)).state).state.spiderMarkers = [] :=
  ⟨by decide, by decide,
    (spiral_cleared_below_threshold sampleHelpers sampleProps sampleProps sampleSpider
      sampleIndex 3 (by decide) (by decide) rfl rfl).2.2.2⟩

/-! ## The result set is empty while no index is held -/

theorem spiralEffect_keeps_index (h : Helpers χ ρ β ι ν σ) (p : Props χ ν)
    (s : State χ ρ ι ν σ) :
    (spiralEffect h p s).state.superCluster = s.superCluster ∧
      (spiralEffect h p s).state.markers = s.markers := by
  simp only [spiralEffect]
  split_ifs
  · exact ⟨rfl, rfl⟩
  · cases hloop : (spiralLoop h s.superCluster s.markers s.markers 0
      { allSpiderMarkers := [], spiralChildren := [], events := [], error := none }).error <;>
      exact ⟨rfl, rfl⟩
  · exact ⟨rfl, rfl⟩

theorem onClusterPress_keeps_index (h : Helpers χ ρ β ι ν σ) (p : Props χ ν)
    (s : State χ ρ ι ν σ) (cluster : Feature ν) :
    (_onClusterPress h p s cluster).state.superCluster = s.superCluster ∧
      (_onClusterPress h p s cluster).state.markers = s.markers := by
  cases hsc : s.superCluster with
  | none => simp [_onClusterPress, hsc]
  | some index =>
    cases hl : h.getLeaves index cluster.id Limit.infinity with
    | error e => simp [_onClusterPress, hsc, hl]
    | ok children =>
      cases hp : p.preserveClusterPressBehavior <;> simp [_onClusterPress, hsc, hl, hp]

theorem onRegionChangeComplete_no_index (h : Helpers χ ρ β ι ν σ) (p : Props χ ν)
    (s : State χ ρ ι ν σ) (region : Option ρ) (hnone : s.superCluster = none) :
    (_onRegionChangeComplete h p s region).state = s ∧
      (_onRegionChangeComplete h p s region).error = none ∧
      (_onRegionChangeComplete h p s region).events =
        (if p.onRegionChangeComplete then [Event.onRegionChangeComplete region none]
        else []) := by
  simp [_onRegionChangeComplete, hnone]

theorem onRegionChangeComplete_keeps_index (h : Helpers χ ρ β ι ν σ) (p : Props χ ν)
    (s : State χ ρ ι ν σ) (region : Option ρ) :
    (_onRegionChangeComplete h p s region).state.superCluster = s.superCluster := by
  unfold _onRegionChangeComplete
  split <;> rfl

theorem reachable_no_index_no_markers (h : Helpers χ ρ β ι ν σ) (s : State χ ρ ι ν σ)
    (hr : Reachable h s) : s.superCluster = none → s.markers = [] := by
  induction hr with
  | init region => intro _; rfl
  | rebuild p s _ _ =>
    intro hnone
    unfold rebuildEffect at hnone ⊢
    cases hen : p.clusteringEnabled
    · simp [hen]
    · simp [hen] at hnone
  | spiral p s _ ih =>
    intro hnone
    rw [(spiralEffect_keeps_index h p s).1] at hnone
    rw [(spiralEffect_keeps_index h p s).2]
    exact ih hnone
  | regionChange p region s _ ih =>
    intro hnone
    rw [onRegionChangeComplete_keeps_index] at hnone
    rw [(onRegionChangeComplete_no_index h p s region hnone).1]
    exact ih hnone
  | clusterPress p cluster s _ ih =>
    intro hnone
    rw [(onClusterPress_keeps_index h p s cluster).1] at hnone
    rw [(onClusterPress_keeps_index h p s cluster).2]
    exact ih hnone

/-- C9: in every state reachable from the first render by rebuilds, spiral
effects, viewport changes and cluster activations, no index held means an empty
result set; and a viewport change handled while no index is held raises
nothing, leaves the result set empty and leaves the whole state as it was. -/
theorem no_index_empty_result (h : Helpers χ ρ β ι ν σ) (s : State χ ρ ι ν σ)
    (hr : Reachable h s) :
    (s.superCluster = none → s.markers = []) ∧
      (∀ (p : Props χ ν) (region : Option ρ), s.superCluster = none →
        (_onRegionChangeComplete h p s region).error = none ∧
          (_onRegionChangeComplete h p s region).state.markers = [] ∧
          (_onRegionChangeComplete h p s region).state = s) := by
  refine ⟨reachable_no_index_no_markers h s hr, ?_⟩
  intro p region hnone
  have hstep := onRegionChangeComplete_no_index h p s region hnone
  refine ⟨hstep.2.1, ?_, hstep.1⟩
  rw [hstep.1]
  exact reachable_no_index_no_markers h s hr hnone

/-- C9 on the sample: after a rebuild with clustering switched off no index is
held, the result set is empty, and a viewport change to zoom 19 changes
nothing. -/
theorem no_index_empty_result_witness :
    (rebuildEffect sampleHelpers { sampleProps with clusteringEnabled := false }
        sampleSpider).state.superCluster = none ∧
      (rebuildEffect sampleHelpers { sampleProps with clusteringEnabled := false }
        sampleSpider).state.markers = [] ∧
      (_onRegionChangeComplete sampleHelpers sampleProps
        (rebuildEffect sampleHelpers { sampleProps with clusteringEnabled := false }
          sampleSpider).state (some 19)).state =
        (rebuildEffect sampleHelpers { sampleProps with clusteringEnabled := false }
          sampleSpider).state := by
  have hreach : Reachable sampleHelpers
      (rebuildEffect sampleHelpers { sampleProps with clusteringEnabled := false }
        sampleSpider).state :=
    Reachable.rebuild _ _ (Reachable.spiral _ _ (Reachable.regionChange _ _ _
      (Reachable.clusterPress _ _ _ (Reachable.rebuild _ _ (Reachable.init (some 3))))))
  have key := no_index_empty_result sampleHelpers _ hreach
  exact ⟨rfl, key.1 rfl, (key.2 sampleProps (some 19) rfl).2.2⟩

/-! ## The leaves handed to the spiral generator -/

theorem nearestClusterLeaves_snoc_cluster (h : Helpers χ ρ β ι ν σ) (index : ι)
    (pre : List (Feature ν)) (m : Feature ν) (hm : m.properties.cluster = true) :
    nearestClusterLeaves h index (pre ++ [m]) = leavesOf h index m := by
  simp [nearestClusterLeaves, hm]

theorem nearestClusterLeaves_snoc_other (h : Helpers χ ρ β ι ν σ) (index : ι)
    (pre : List (Feature ν)) (m : Feature ν) (hm : ¬ m.properties.cluster = true) :
    nearestClusterLeaves h index (pre ++ [m]) = nearestClusterLeaves h index pre := by
  simp [nearestClusterLeaves, hm]

theorem spiralLeavesAt_append (h : Helpers χ ρ β ι ν σ) (index : ι)
    (pre rest : List (Feature ν)) (m : Feature ν) :
    spiralLeavesAt h index (pre ++ m :: rest) pre.length =
      if m.properties.cluster then leavesOf h index m
      else nearestClusterLeaves h index pre := by
  have hget : (pre ++ m :: rest)[pre.length]? = some m := by
    rw [List.getElem?_append_right (Nat.le_refl _)]
    simp
  simp only [spiralLeavesAt, hget, List.take_left]

theorem spiralLoop_spec (h : Helpers χ ρ β ι ν σ) (index : ι) (whole : List (Feature ν)) :
    ∀ (rest pre : List (Feature ν)) (acc : SpiralLoop ρ ι ν σ),
      acc.error = none →
      acc.spiralChildren = nearestClusterLeaves h index pre →
      (∀ m ∈ rest, m.properties.cluster = true →
        ∃ leaves, h.getLeaves index m.properties.cluster_id Limit.infinity =
          Except.ok leaves) →
      (spiralLoop h (some index) whole rest pre.length acc).error = none ∧
        (spiralLoop h (some index) whole rest pre.length acc).events =
          acc.events ++ (rest.enumFrom pre.length).map (fun e =>
            Event.generateSpiral e.2 (spiralLeavesAt h index (pre ++ rest) e.1) whole e.1) ∧
        (spiralLoop h (some index) whole rest pre.length acc).allSpiderMarkers =
          acc.allSpiderMarkers ++ ((rest.enumFrom pre.length).map (fun e =>
            h.generateSpiral e.2 (spiralLeavesAt h index (pre ++ rest) e.1) whole e.1)).flatten := by
  intro rest
  induction rest with
  | nil =>
    intro pre acc he _ _
    simp [spiralLoop, he]
  | cons m rest ih =>
    intro pre acc he hc hok
    have hrest : ∀ m' ∈ rest, m'.properties.cluster = true →
        ∃ leaves, h.getLeaves index m'.properties.cluster_id Limit.infinity =
          Except.ok leaves :=
      fun m' hm' => hok m' (List.mem_cons_of_mem _ hm')
    have hlen : (pre ++ [m]).length = pre.length + 1 := by simp
    have happ : pre ++ m :: rest = (pre ++ [m]) ++ rest := by simp
    have hat := spiralLeavesAt_append h index pre rest m
    by_cases hm : m.properties.cluster = true
    · obtain ⟨leaves, hl⟩ := hok m (List.mem_cons_self _ _) hm
      have hleaves : leavesOf h index m = leaves := by simp [leavesOf, hl]
      have hnear : leaves = nearestClusterLeaves h index (pre ++ [m]) := by
        rw [nearestClusterLeaves_snoc_cluster h index pre m hm, hleaves]
      have step := ih (pre ++ [m])
        { allSpiderMarkers := acc.allSpiderMarkers ++ h.generateSpiral m leaves whole pre.length
          spiralChildren := leaves
          events := acc.events ++ [Event.generateSpiral m leaves whole pre.length]
          error := none } rfl hnear hrest
      rw [hlen, ← happ] at step
      simp only [hm, if_true, hleaves] at hat
      simp only [spiralLoop, hm, if_true, hl, List.enumFrom_cons, List.map_cons,
        List.flatten_cons, hat]
      refine ⟨step.1, ?_, ?_⟩
      · rw [step.2.1]
        simp
      · rw [step.2.2]
        simp
    · have hmf : m.properties.cluster = false := by simpa using hm
      have hnear : acc.spiralChildren = nearestClusterLeaves h index (pre ++ [m]) := by
        rw [nearestClusterLeaves_snoc_other h index pre m hm, hc]
      have step := ih (pre ++ [m])
        { allSpiderMarkers :=
            acc.allSpiderMarkers ++ h.generateSpiral m acc.spiralChildren whole pre.length
          spiralChildren := acc.spiralChildren
          events := acc.events ++ [Event.generateSpiral m acc.spiralChildren whole pre.length]
          error := none } rfl hnear hrest
      rw [hlen, ← happ] at step
      simp only [hmf, Bool.false_eq_true, if_false, ← hc] at hat
      simp only [spiralLoop, hmf, Bool.false_eq_true, if_false, List.enumFrom_cons,
        List.map_cons, List.flatten_cons, hat]
      refine ⟨step.1, ?_, ?_⟩
      · rw [step.2.1]
        simp
      · rw [step.2.2]
        simp

/-- C10, as the claim puts it, fails on the sample.  The spiderfying sample
state holds a result set of two entries; with the spiderfy flag switched off
the spiral effect returns at once and calls the generator for neither of them.
And with the flag on, a result set whose first entry is a cluster the held
index does not know makes `getLeaves` raise: the effect stops with that error
before any generator call and sets no spiral positions. -/
theorem spiral_effect_without_generator_calls :
    sampleSpider.isSpiderfier = true ∧
      sampleSpider.superCluster = some sampleIndex ∧
      sampleSpider.markers = [sampleAggregate 2 2, sampleLeaf 11 51 3] ∧
      (spiralEffect sampleHelpers { sampleProps with spiralEnabled := false }
        sampleSpider).events = [] ∧
      (spiralEffect sampleHelpers { sampleProps with spiralEnabled := false }
          sampleSpider).events ≠
        sampleSpider.markers.enum.map (fun e =>
          Event.generateSpiral e.2
            (spiralLeavesAt sampleHelpers sampleIndex sampleSpider.markers e.1)
            sampleSpider.markers e.1) ∧
      (spiralEffect sampleHelpers sampleProps
        { sampleSpider with markers := [sampleAggregate 99 2, sampleLeaf 11 51 3] }).error =
          some JSError.notFound ∧
      (spiralEffect sampleHelpers sampleProps
        { sampleSpider with markers := [sampleAggregate 99 2, sampleLeaf 11 51 3] }).events =
          [] ∧
      (spiralEffect sampleHelpers sampleProps
        { sampleSpider with
          markers := [sampleAggregate 99 2, sampleLeaf 11 51 3] }).state.spiderMarkers =
          sampleSpider.spiderMarkers := by
  decide

/-- C10, amended: when the spiral effect runs with the spiderfy flag on, in the
spiderfying state, with a non-empty result set, an index held and `getLeaves`
answering for every cluster entry, it raises nothing and calls the generator
exactly once per result-set entry, in order, with the entry, its leaves, the
whole result set and the position; the spiral positions become the
concatenation of the outputs in that order and no other state cell changes.
The leaves of entry `i` are its own (`getLeaves(cluster_id, Infinity)`) when it
is a cluster, and otherwise those of the nearest preceding cluster entry, or
none when there is no such entry. -/
theorem spiral_effect_generator_calls (h : Helpers χ ρ β ι ν σ) (p : Props χ ν)
    (s : State χ ρ ι ν σ) (index : ι)
    (hsp : p.spiralEnabled = true) (hs : s.isSpiderfier = true) (hne : s.markers ≠ [])
    (hidx : s.superCluster = some index)
    (hok : ∀ m ∈ s.markers, m.properties.cluster = true →
      ∃ leaves, h.getLeaves index m.properties.cluster_id Limit.infinity =
        Except.ok leaves) :
    (spiralEffect h p s).error = none ∧
      (spiralEffect h p s).events =
        s.markers.enum.map (fun e =>
          Event.generateSpiral e.2 (spiralLeavesAt h index s.markers e.1) s.markers e.1) ∧
      (spiralEffect h p s).state =
        { s with spiderMarkers :=
            (s.markers.enum.map (fun e =>
              h.generateSpiral e.2 (spiralLeavesAt h index s.markers e.1)
                s.markers e.1)).flatten } := by
  have hpos : 0 < s.markers.length := List.length_pos.mpr hne
  have loop := spiralLoop_spec h index s.markers s.markers []
    ({ allSpiderMarkers := [], spiralChildren := [], events := [], error := none } :
      SpiralLoop ρ ι ν σ) rfl
    (by simp [nearestClusterLeaves]) hok
  simp only [List.length_nil, List.nil_append] at loop
  simp only [spiralEffect, hsp, hs, hidx, hpos, List.enum]
  simp [loop.1, loop.2.1, loop.2.2]

/-- C10 on the sample: in the spiderfying sample state the result set is the
cluster with id 2 followed by the lone leaf of child 3; the generator is called
for the cluster with its two leaves, and then for the lone leaf with those same
two leaves. -/
theorem spiral_effect_generator_calls_witness :
    sampleSpider.markers = [sampleAggregate 2 2, sampleLeaf 11 51 3] ∧
      (spiralEffect sampleHelpers sampleProps sampleSpider).events =
        [Event.generateSpiral (sampleAggregate 2 2)
            [sampleLeaf 10 50 0, sampleLeaf 10 50 2] sampleSpider.markers 0,
          Event.generateSpiral (sampleLeaf 11 51 3)
            [sampleLeaf 10 50 0, sampleLeaf 10 50 2] sampleSpider.markers 1] := by
  have key := spiral_effect_generator_calls sampleHelpers sampleProps sampleSpider
    sampleIndex rfl (by decide) (by decide) (by decide)
    (by
      intro m hm hc
      have hcases : m = sampleAggregate 2 2 ∨ m = sampleLeaf 11 51 3 := by
        have hmarkers : sampleSpider.markers = [sampleAggregate 2 2, sampleLeaf 11 51 3] := by
          decide
        rw [hmarkers] at hm
        simpa using hm
      rcases hcases with rfl | rfl
      · exact ⟨_, rfl⟩
      · exact absurd hc (by decide))
  refine ⟨by decide, ?_⟩
  rw [key.2.1]
  decide

end ClusteredMapView
